import Mathlib

/-!
# Verification of `xonsh/xoreutils/_posix.c`

Shallow embedding of the uptime C extension. The C code consists of
`_calc_uptime` (elapsed-time computation from a boot `struct timeval`),
`_uptime_posix` (utmpx / login-record variant) and `_uptime_osx`
(sysctl / kernel-parameter variant).

Modelling choices:
* `struct timeval` fields (`time_t tv_sec`, `suseconds_t tv_usec`) are
  modelled as mathematical integers `Int`; the C casts `(unsigned)` are
  modelled explicitly as `% 2^32` (value reduced into `[0, 2^32)`),
  since `unsigned int` is 32 bits on every platform this extension targets.
* The `double` arithmetic `(unsigned)sec + (unsigned)usec / 1000000.0` is
  modelled exactly in `ℚ`; all quantities involved are exact rationals.
* OS calls (`gettimeofday`, `getutxid`, `sysctlbyname`) are ambient inputs:
  an `Env` record holds each call's outcome, and the embedded functions are
  pure functions of the environment.
* The utmpx database handle of the login-record variant is modelled by an
  explicit state (`UtmpxState`) threaded through `getutxid`/`endutxent`.
-/

/-- `struct timeval`: seconds and microseconds fields, as (signed) integers. -/
structure Timeval where
  tv_sec : Int
  tv_usec : Int
deriving DecidableEq, Repr

/-- The relevant part of `struct utmpx`: the embedded boot timestamp
(`ut_tv`), as `memcpy`ed by `_uptime_posix`. -/
structure UtmpxEntry where
  ut_tv : Timeval
deriving DecidableEq, Repr

/-- C `(unsigned)` cast of a signed integer value: reduction modulo `2^32`
into `[0, 2^32)` (Lean's `Int.emod` by a positive modulus is exactly this). -/
def castUnsigned (x : Int) : Int := x % 2 ^ 32

/-- The timestamp subtraction performed by `_calc_uptime` lines 27-33:
borrow a second when `tv.tv_usec < bt.tv_usec`, then subtract the seconds.
`tv` is the current time, `bt` the boot time; the C code updates `tv` in
place and this function returns its final value. -/
def subtractBoot (tv bt : Timeval) : Timeval :=
  let tv1 : Timeval :=
    if tv.tv_usec < bt.tv_usec then
      { tv_sec := tv.tv_sec - 1, tv_usec := 1000000 - bt.tv_usec + tv.tv_usec }
    else
      { tv_sec := tv.tv_sec, tv_usec := tv.tv_usec - bt.tv_usec }
  { tv_sec := tv1.tv_sec - bt.tv_sec, tv_usec := tv1.tv_usec }

/-- `_calc_uptime(struct timeval bt)`. The outcome of the `gettimeofday`
call is passed in as `now` (`none` models a failing `gettimeofday`, in which
case the C function returns `-1`). The `double` result is modelled in `ℚ`:
`(unsigned)tv.tv_sec + (unsigned)tv.tv_usec / 1000000.0`. -/
def _calc_uptime (now : Option Timeval) (bt : Timeval) : ℚ :=
  match now with
  | none => -1
  | some tv =>
    let d := subtractBoot tv bt
    (castUnsigned d.tv_sec : ℚ) + (castUnsigned d.tv_usec : ℚ) / 1000000

/-- Result handed back to the Python host: `Py_RETURN_NONE` or a
`Py_BuildValue("d", ...)` float. -/
inductive PyResult where
  | none : PyResult
  | num : ℚ → PyResult
deriving DecidableEq, Repr

/-- Outcomes of the OS calls made during one invocation. -/
structure Env where
  /-- Outcome of `gettimeofday`: `none` models a failing call. -/
  gettimeofday : Option Timeval
  /-- Outcome of `getutxid` on the `{.ut_type = BOOT_TIME}` query:
  `none` models `NULL` (no boot-time record). -/
  getutxid_boot : Option UtmpxEntry
  /-- The `kern.boottime` kernel object: its size in bytes and its value,
  or `none` when the parameter is absent/unsupported. -/
  kern_boottime : Option (Nat × Timeval)
deriving DecidableEq, Repr

/-- State of the utmpx user-accounting database handle. -/
structure UtmpxState where
  db_open : Bool
deriving DecidableEq, Repr

/-- `getutxid`: reads the utmpx database (opening it if necessary), leaving
the database handle open; returns the matching entry or `NULL`. -/
def getutxid (env : Env) (_s : UtmpxState) : Option UtmpxEntry × UtmpxState :=
  (env.getutxid_boot, { db_open := true })

/-- `endutxent`: closes the utmpx database handle. -/
def endutxent (_s : UtmpxState) : UtmpxState :=
  { db_open := false }

/-- `sizeof(bt)` for `struct timeval` (two 8-byte fields on the targeted
64-bit platforms). -/
def sizeof_timeval : Nat := 16

/-- Modelled from the spec: the `sysctlbyname("kern.boottime", &bt, &len, NULL, 0)`
OS call, which is external to the repository. Per the spec, the query fails
("parameter absent or of unexpected size") when the kernel object is absent
or its size differs from that of a timestamp pair; otherwise it yields the
boot timestamp. -/
def sysctl_kern_boottime (env : Env) : Option Timeval :=
  match env.kern_boottime with
  | Option.none => Option.none
  | some (sz, bt) => if sz = sizeof_timeval then some bt else Option.none

/-- `_uptime_posix`: query `getutxid` for the BOOT_TIME record; on `NULL`,
call `endutxent` and return `None`; otherwise copy out `ut_tv`, call
`endutxent`, and return the float `_calc_uptime(bt)`. -/
def _uptime_posix (env : Env) (s : UtmpxState) : PyResult × UtmpxState :=
  let (res, s1) := getutxid env s
  match res with
  | Option.none => (PyResult.none, endutxent s1)
  | some r =>
    let bt := r.ut_tv
    let s2 := endutxent s1
    (PyResult.num (_calc_uptime env.gettimeofday bt), s2)

/-- `_uptime_osx` (the `__APPLE__` build): query `kern.boottime`; on failure
return `None`, otherwise return the float `_calc_uptime(bt)`. -/
def _uptime_osx (env : Env) : PyResult :=
  match sysctl_kern_boottime env with
  | Option.none => PyResult.none
  | some bt => PyResult.num (_calc_uptime env.gettimeofday bt)

/-- `_uptime_osx` (the non-`__APPLE__` build): unconditionally `None`. -/
def _uptime_osx_unsupported : PyResult :=
  PyResult.none

/-- Spec-side definition (for refinement comparison): a timestamp converted
to a single combined seconds-plus-microseconds value, as in the spec's
"converting both timestamps to a single combined (seconds + microseconds/1e6)
value". -/
def toSecs (t : Timeval) : ℚ :=
  (t.tv_sec : ℚ) + (t.tv_usec : ℚ) / 1000000

/-- Spec-side definition: total microseconds of a timestamp, used to state
the ordering `N ≥ B` between timestamps. -/
def totalUsecs (t : Timeval) : Int :=
  t.tv_sec * 1000000 + t.tv_usec

/-- Spec-side definition (for refinement comparison): the second delta as
described in the spec — `Nsec - Bsec`, less one when a second was borrowed. -/
def specSecDelta (tv bt : Timeval) : Int :=
  if tv.tv_usec < bt.tv_usec then tv.tv_sec - 1 - bt.tv_sec
  else tv.tv_sec - bt.tv_sec

/-- Spec-side definition (for refinement comparison): the microsecond delta
as described in the spec — `1,000,000 - Busec + Nusec` on the borrow path,
`Nusec - Busec` otherwise. -/
def specUsecDelta (tv bt : Timeval) : Int :=
  if tv.tv_usec < bt.tv_usec then 1000000 - bt.tv_usec + tv.tv_usec
  else tv.tv_usec - bt.tv_usec

/-! ## Helper lemmas -/

theorem castUnsigned_nonneg (x : Int) : 0 ≤ castUnsigned x :=
  Int.emod_nonneg x (by norm_num)

theorem castUnsigned_lt (x : Int) : castUnsigned x < 2 ^ 32 :=
  Int.emod_lt_of_pos x (by norm_num)

theorem castUnsigned_eq_self {x : Int} (h1 : 0 ≤ x) (h2 : x < 2 ^ 32) :
    castUnsigned x = x :=
  Int.emod_eq_of_lt h1 h2

theorem castUnsigned_neg_eq {x : Int} (h1 : -(2 ^ 32) ≤ x) (h2 : x < 0) :
    castUnsigned x = x + 2 ^ 32 := by
  unfold castUnsigned
  omega

theorem subtractBoot_sec_eq (tv bt : Timeval) :
    (subtractBoot tv bt).tv_sec =
      if tv.tv_usec < bt.tv_usec then tv.tv_sec - 1 - bt.tv_sec
      else tv.tv_sec - bt.tv_sec := by
  unfold subtractBoot
  split_ifs <;> simp

theorem subtractBoot_usec_eq (tv bt : Timeval) :
    (subtractBoot tv bt).tv_usec =
      if tv.tv_usec < bt.tv_usec then 1000000 - bt.tv_usec + tv.tv_usec
      else tv.tv_usec - bt.tv_usec := by
  unfold subtractBoot
  split_ifs <;> simp

/-- Algebraic identity: the borrow adjustment is exact — recombining the
adjusted fields as seconds + microseconds/1e6 yields precisely the
difference of the two combined timestamps, with no side condition. -/
theorem subtractBoot_combined (tv bt : Timeval) :
    ((subtractBoot tv bt).tv_sec : ℚ) + ((subtractBoot tv bt).tv_usec : ℚ) / 1000000
      = toSecs tv - toSecs bt := by
  rw [subtractBoot_sec_eq, subtractBoot_usec_eq]
  unfold toSecs
  split_ifs with h
  · push_cast
    field_simp
    ring
  · push_cast
    field_simp
    ring

theorem subtractBoot_usec_range {tv bt : Timeval}
    (h1 : 0 ≤ tv.tv_usec) (h2 : tv.tv_usec < 1000000)
    (h3 : 0 ≤ bt.tv_usec) (h4 : bt.tv_usec < 1000000) :
    0 ≤ (subtractBoot tv bt).tv_usec ∧ (subtractBoot tv bt).tv_usec < 1000000 := by
  rw [subtractBoot_usec_eq]
  split_ifs with h <;> omega

theorem subtractBoot_sec_nonneg {tv bt : Timeval}
    (h2 : tv.tv_usec < 1000000) (h3 : 0 ≤ bt.tv_usec)
    (hord : totalUsecs bt ≤ totalUsecs tv) :
    0 ≤ (subtractBoot tv bt).tv_sec := by
  unfold totalUsecs at hord
  rw [subtractBoot_sec_eq]
  split_ifs with h <;> omega

theorem subtractBoot_sec_le (tv bt : Timeval) :
    (subtractBoot tv bt).tv_sec ≤ tv.tv_sec - bt.tv_sec := by
  rw [subtractBoot_sec_eq]
  split_ifs with h <;> omega

/-- Core exactness: with in-range microsecond fields, an ordered pair of
timestamps, and an adjusted second delta below `2^32`, the computation is
exact. -/
theorem calc_uptime_exact_core {tv bt : Timeval}
    (h1 : 0 ≤ tv.tv_usec) (h2 : tv.tv_usec < 1000000)
    (h3 : 0 ≤ bt.tv_usec) (h4 : bt.tv_usec < 1000000)
    (hord : totalUsecs bt ≤ totalUsecs tv)
    (hsec1 : (subtractBoot tv bt).tv_sec < 2 ^ 32) :
    _calc_uptime (some tv) bt = toSecs tv - toSecs bt := by
  have husec := subtractBoot_usec_range h1 h2 h3 h4
  have hsec0 := subtractBoot_sec_nonneg h2 h3 hord
  show (castUnsigned (subtractBoot tv bt).tv_sec : ℚ)
      + (castUnsigned (subtractBoot tv bt).tv_usec : ℚ) / 1000000
      = toSecs tv - toSecs bt
  rw [castUnsigned_eq_self hsec0 hsec1,
    castUnsigned_eq_self husec.1 (by omega),
    subtractBoot_combined]

theorem calc_uptime_some_nonneg (tv bt : Timeval) :
    0 ≤ _calc_uptime (some tv) bt := by
  show (0 : ℚ) ≤ (castUnsigned (subtractBoot tv bt).tv_sec : ℚ)
      + (castUnsigned (subtractBoot tv bt).tv_usec : ℚ) / 1000000
  have hs := castUnsigned_nonneg (subtractBoot tv bt).tv_sec
  have hu := castUnsigned_nonneg (subtractBoot tv bt).tv_usec
  positivity

/-! ## Claim theorems -/

/-- C9: on B = (1000, 500000), N = (1005, 250000) the computation takes the
borrow path (250000 < 500000), producing adjusted fields (4, 750000) and the
result 4.75; on B = (1000, 0), N = (1000, 0) it returns exactly 0.0. -/
theorem calc_uptime_concrete_examples :
    (250000 : Int) < 500000 ∧
    subtractBoot ⟨1005, 250000⟩ ⟨1000, 500000⟩ = ⟨4, 750000⟩ ∧
    _calc_uptime (some ⟨1005, 250000⟩) ⟨1000, 500000⟩ = 4.75 ∧
    _calc_uptime (some ⟨1000, 0⟩) ⟨1000, 0⟩ = 0 := by
  refine ⟨by norm_num, by decide, ?_, ?_⟩
  · norm_num [_calc_uptime, subtractBoot, castUnsigned]
  · norm_num [_calc_uptime, subtractBoot, castUnsigned]

/-- C8: for input timestamps whose microsecond fields lie in [0, 1000000),
the microsecond delta after the borrow/carry adjustment lies in [0, 1000000). -/
theorem subtractBoot_usec_normalized (tv bt : Timeval)
    (h1 : 0 ≤ tv.tv_usec) (h2 : tv.tv_usec < 1000000)
    (h3 : 0 ≤ bt.tv_usec) (h4 : bt.tv_usec < 1000000) :
    0 ≤ (subtractBoot tv bt).tv_usec ∧ (subtractBoot tv bt).tv_usec < 1000000 :=
  subtractBoot_usec_range h1 h2 h3 h4

/-- Witness for C8 at N = (5, 1), B = (3, 999999) (borrow path). -/
theorem subtractBoot_usec_normalized_witness :
    0 ≤ (subtractBoot ⟨5, 1⟩ ⟨3, 999999⟩).tv_usec ∧
    (subtractBoot ⟨5, 1⟩ ⟨3, 999999⟩).tv_usec < 1000000 :=
  subtractBoot_usec_normalized ⟨5, 1⟩ ⟨3, 999999⟩
    (by norm_num) (by norm_num) (by norm_num) (by norm_num)

/-- C7: on every execution path of `_uptime_posix` — record found or not —
the utmpx database handle is closed in the state the call returns. -/
theorem uptime_posix_closes_handle (env : Env) (s : UtmpxState) :
    ((_uptime_posix env s).2).db_open = false := by
  unfold _uptime_posix getutxid endutxent
  cases env.getutxid_boot <;> rfl

/-- C5: when the `getutxid` boot-record lookup reports no entry,
`_uptime_posix` returns the absence value `None` — distinct from the number
zero — and does so for every outcome of the current-time query, i.e. without
the elapsed-time computation influencing the result. -/
theorem uptime_posix_no_record_returns_none (env : Env) (s : UtmpxState)
    (h : env.getutxid_boot = Option.none) :
    (_uptime_posix env s).1 = PyResult.none ∧
    (∀ g, (_uptime_posix { env with gettimeofday := g } s).1 = PyResult.none) ∧
    PyResult.none ≠ PyResult.num 0 := by
  refine ⟨?_, fun g => ?_, by simp⟩
  · unfold _uptime_posix getutxid
    rw [h]
  · unfold _uptime_posix getutxid
    simp only [h]

/-- Witness for C5: a concrete environment with no boot-time record. -/
theorem uptime_posix_no_record_returns_none_witness :
    (_uptime_posix { gettimeofday := some ⟨7, 5⟩, getutxid_boot := Option.none,
                     kern_boottime := Option.none } ⟨false⟩).1 = PyResult.none :=
  (uptime_posix_no_record_returns_none _ _ rfl).1

/-- C6: `_uptime_osx` returns the absence value whenever the `kern.boottime`
query is unsupported (non-Apple build), the parameter is absent, or the
kernel object's size differs from that of a timestamp pair; it produces a
numeric result only from a correctly-sized retrieved boot timestamp, fed to
the elapsed-time computation. -/
theorem uptime_osx_absence_cases (env : Env) :
    (env.kern_boottime = Option.none → _uptime_osx env = PyResult.none) ∧
    (∀ sz bt, env.kern_boottime = some (sz, bt) → sz ≠ sizeof_timeval →
      _uptime_osx env = PyResult.none) ∧
    (∀ q, _uptime_osx env = PyResult.num q →
      ∃ bt, env.kern_boottime = some (sizeof_timeval, bt) ∧
        q = _calc_uptime env.gettimeofday bt) ∧
    _uptime_osx_unsupported = PyResult.none := by
  refine ⟨?_, ?_, ?_, rfl⟩
  · intro h
    unfold _uptime_osx sysctl_kern_boottime
    rw [h]
  · intro sz bt h hsz
    unfold _uptime_osx sysctl_kern_boottime
    rw [h]
    simp [hsz]
  · intro q hq
    unfold _uptime_osx sysctl_kern_boottime at hq
    rcases hk : env.kern_boottime with _ | ⟨sz, bt⟩
    · rw [hk] at hq
      exact absurd hq (by simp)
    · rw [hk] at hq
      by_cases hsz : sz = sizeof_timeval
      · subst hsz
        simp only [if_pos rfl] at hq
        refine ⟨bt, rfl, ?_⟩
        injection hq with h
        exact h.symm
      · simp [hsz] at hq

/-- Witness for C6: a wrong-sized kernel object (8 bytes) yields `None`. -/
theorem uptime_osx_absence_cases_witness :
    _uptime_osx { gettimeofday := some ⟨5, 0⟩, getutxid_boot := Option.none,
                  kern_boottime := some (8, ⟨1, 0⟩) } = PyResult.none :=
  (uptime_osx_absence_cases _).2.1 8 ⟨1, 0⟩ rfl (by norm_num [sizeof_timeval])

/-- C10: when `gettimeofday` fails after a boot timestamp was obtained,
`_calc_uptime` returns -1 and both entry points hand the host the float
-1.0 — a `num` result, not the absence value `None`. -/
theorem gettimeofday_failure_yields_minus_one (bt : Timeval) (env : Env)
    (s : UtmpxState) (r : UtmpxEntry) (btk : Timeval)
    (hg : env.gettimeofday = Option.none)
    (hr : env.getutxid_boot = some r)
    (hk : env.kern_boottime = some (sizeof_timeval, btk)) :
    _calc_uptime Option.none bt = -1 ∧
    (_uptime_posix env s).1 = PyResult.num (-1) ∧
    _uptime_osx env = PyResult.num (-1) ∧
    PyResult.num (-1) ≠ PyResult.none := by
  refine ⟨rfl, ?_, ?_, by simp⟩
  · unfold _uptime_posix getutxid
    rw [hr]
    simp only [hg]
    rfl
  · unfold _uptime_osx sysctl_kern_boottime
    rw [hk]
    simp only [if_pos rfl, hg]
    rfl

/-- Witness for C10 at a concrete environment with failing `gettimeofday`. -/
theorem gettimeofday_failure_yields_minus_one_witness :
    (_uptime_posix { gettimeofday := Option.none,
                     getutxid_boot := some ⟨⟨100, 3⟩⟩,
                     kern_boottime := some (16, ⟨100, 3⟩) } ⟨false⟩).1
      = PyResult.num (-1) :=
  (gettimeofday_failure_yields_minus_one ⟨0, 0⟩ _ ⟨false⟩ ⟨⟨100, 3⟩⟩ ⟨100, 3⟩
    rfl rfl rfl).2.1

/-- C4: with in-range microsecond fields, whenever the boot timestamp is
later than the current timestamp, the (adjusted) second delta is negative
and the result is its unsigned reinterpretation modulo `2^32` plus the
fractional microsecond part — a non-negative wrapped value, not a negative
number and not an error. -/
theorem calc_uptime_unsigned_wrap_on_negative_delta (tv bt : Timeval)
    (h1 : 0 ≤ tv.tv_usec) (h2 : tv.tv_usec < 1000000)
    (h3 : 0 ≤ bt.tv_usec) (h4 : bt.tv_usec < 1000000)
    (hlt : totalUsecs tv < totalUsecs bt) :
    specSecDelta tv bt < 0 ∧
    _calc_uptime (some tv) bt
      = (castUnsigned (specSecDelta tv bt) : ℚ)
          + (specUsecDelta tv bt : ℚ) / 1000000 ∧
    0 ≤ _calc_uptime (some tv) bt := by
  have hsec : (subtractBoot tv bt).tv_sec = specSecDelta tv bt := by
    rw [subtractBoot_sec_eq]; rfl
  have husec : (subtractBoot tv bt).tv_usec = specUsecDelta tv bt := by
    rw [subtractBoot_usec_eq]; rfl
  have hneg : specSecDelta tv bt < 0 := by
    unfold totalUsecs at hlt
    unfold specSecDelta
    split_ifs with h <;> omega
  have hurange : 0 ≤ specUsecDelta tv bt ∧ specUsecDelta tv bt < 1000000 := by
    rw [← husec]
    exact subtractBoot_usec_range h1 h2 h3 h4
  refine ⟨hneg, ?_, calc_uptime_some_nonneg tv bt⟩
  show (castUnsigned (subtractBoot tv bt).tv_sec : ℚ)
      + (castUnsigned (subtractBoot tv bt).tv_usec : ℚ) / 1000000 = _
  rw [hsec, husec, castUnsigned_eq_self hurange.1 (by omega)]

/-- Witness for C4: boot time (100, 0) later than current time (50, 0). -/
theorem calc_uptime_unsigned_wrap_witness :
    specSecDelta ⟨50, 0⟩ ⟨100, 0⟩ < 0 ∧
    _calc_uptime (some ⟨50, 0⟩) ⟨100, 0⟩
      = (castUnsigned (specSecDelta ⟨50, 0⟩ ⟨100, 0⟩) : ℚ)
          + (specUsecDelta ⟨50, 0⟩ ⟨100, 0⟩ : ℚ) / 1000000 ∧
    0 ≤ _calc_uptime (some ⟨50, 0⟩) ⟨100, 0⟩ :=
  calc_uptime_unsigned_wrap_on_negative_delta ⟨50, 0⟩ ⟨100, 0⟩
    (by norm_num) (by norm_num) (by norm_num) (by norm_num)
    (by norm_num [totalUsecs])

/-- C2 (counterexample): at B = (0, 0), N = (2^32, 0) the claim's hypotheses
hold (N ≥ B, microsecond fields in range) yet the unsigned cast wraps the
second delta `2^32` to `0`, so the result is not the true difference
`(Nsec - Bsec) + (Nusec - Busec)/1e6`. -/
theorem calc_uptime_wraps_at_2_pow_32 :
    totalUsecs ⟨0, 0⟩ ≤ totalUsecs ⟨4294967296, 0⟩ ∧
    _calc_uptime (some ⟨4294967296, 0⟩) ⟨0, 0⟩ = 0 ∧
    _calc_uptime (some ⟨4294967296, 0⟩) ⟨0, 0⟩
      ≠ (((4294967296 : Int) - (0 : Int) : Int) : ℚ)
          + (((0 : Int) : ℚ) - ((0 : Int) : ℚ)) / 1000000 := by
  refine ⟨by decide, ?_, ?_⟩
  · norm_num [_calc_uptime, subtractBoot, castUnsigned]
  · norm_num [_calc_uptime, subtractBoot, castUnsigned]

/-- C2 (amended): for timestamps with microsecond fields in [0, 1000000),
N ≥ B, and a second delta `Nsec - Bsec` below `2^32`, the computation
returns exactly `(Nsec - Bsec) + (Nusec - Busec)/1e6`. -/
theorem calc_uptime_exact_of_bounded_delta (tv bt : Timeval)
    (h1 : 0 ≤ tv.tv_usec) (h2 : tv.tv_usec < 1000000)
    (h3 : 0 ≤ bt.tv_usec) (h4 : bt.tv_usec < 1000000)
    (hord : totalUsecs bt ≤ totalUsecs tv)
    (hbound : tv.tv_sec - bt.tv_sec < 2 ^ 32) :
    _calc_uptime (some tv) bt
      = ((tv.tv_sec - bt.tv_sec : Int) : ℚ)
          + ((tv.tv_usec : ℚ) - (bt.tv_usec : ℚ)) / 1000000 := by
  rw [calc_uptime_exact_core h1 h2 h3 h4 hord
    (lt_of_le_of_lt (subtractBoot_sec_le tv bt) hbound)]
  unfold toSecs
  push_cast
  ring

/-- Witness for C2 at B = (3, 250000), N = (10, 750000): result 7.5. -/
theorem calc_uptime_exact_of_bounded_delta_witness :
    _calc_uptime (some ⟨10, 750000⟩) ⟨3, 250000⟩
      = (((10 : Int) - (3 : Int) : Int) : ℚ)
          + (((750000 : Int) : ℚ) - ((250000 : Int) : ℚ)) / 1000000 :=
  calc_uptime_exact_of_bounded_delta ⟨10, 750000⟩ ⟨3, 250000⟩
    (by norm_num) (by norm_num) (by norm_num) (by norm_num)
    (by decide) (by decide)

/-- C3 (counterexample): at B = (0, 500000), N = (2^32 + 1, 0) the borrow
path is taken (0 < 500000) and N ≥ B, yet the adjusted second delta `2^32`
wraps to `0`, so the result differs from the combined-value subtraction. -/
theorem calc_uptime_borrow_wraps_large_delta :
    (⟨4294967297, 0⟩ : Timeval).tv_usec < (⟨0, 500000⟩ : Timeval).tv_usec ∧
    totalUsecs ⟨0, 500000⟩ ≤ totalUsecs ⟨4294967297, 0⟩ ∧
    _calc_uptime (some ⟨4294967297, 0⟩) ⟨0, 500000⟩
      ≠ toSecs ⟨4294967297, 0⟩ - toSecs ⟨0, 500000⟩ := by
  refine ⟨by norm_num, by decide, ?_⟩
  norm_num [_calc_uptime, subtractBoot, castUnsigned, toSecs]

/-- C3 (amended): for timestamps with microsecond fields in [0, 1000000),
N ≥ B, `Nusec < Busec` (the borrow path) and `Nsec - Bsec ≤ 2^32`, the
result equals the difference of the two combined seconds+microseconds/1e6
values: the borrow neither loses nor gains a second. -/
theorem calc_uptime_borrow_exact (tv bt : Timeval)
    (h1 : 0 ≤ tv.tv_usec) (h3 : 0 ≤ bt.tv_usec) (h4 : bt.tv_usec < 1000000)
    (hb : tv.tv_usec < bt.tv_usec)
    (hord : totalUsecs bt ≤ totalUsecs tv)
    (hbound : tv.tv_sec - bt.tv_sec ≤ 2 ^ 32) :
    _calc_uptime (some tv) bt = toSecs tv - toSecs bt := by
  have h2 : tv.tv_usec < 1000000 := lt_trans hb h4
  refine calc_uptime_exact_core h1 h2 h3 h4 hord ?_
  rw [subtractBoot_sec_eq, if_pos hb]
  omega

/-- Witness for C3 at B = (2, 300), N = (8, 100) (borrow path). -/
theorem calc_uptime_borrow_exact_witness :
    _calc_uptime (some ⟨8, 100⟩) ⟨2, 300⟩ = toSecs ⟨8, 100⟩ - toSecs ⟨2, 300⟩ :=
  calc_uptime_borrow_exact ⟨8, 100⟩ ⟨2, 300⟩
    (by norm_num) (by norm_num) (by norm_num) (by norm_num)
    (by decide) (by decide)

/-- C1 (counterexample): when `gettimeofday` fails while a boot timestamp is
available, both entry points hand the host the negative float -1.0, so the
returned value is neither a non-negative number nor the absence value. -/
theorem uptime_gettimeofday_failure_returns_negative :
    (_uptime_posix { gettimeofday := Option.none,
                     getutxid_boot := some ⟨⟨0, 0⟩⟩,
                     kern_boottime := some (16, ⟨0, 0⟩) } ⟨false⟩).1
      = PyResult.num (-1) ∧
    _uptime_osx { gettimeofday := Option.none,
                  getutxid_boot := some ⟨⟨0, 0⟩⟩,
                  kern_boottime := some (16, ⟨0, 0⟩) } = PyResult.num (-1) ∧
    (-1 : ℚ) < 0 :=
  ⟨rfl, rfl, by norm_num⟩

/-- C1 (amended): on every invocation in which the `gettimeofday` query
succeeds, each entry point returns either the absence value or a
non-negative number; the non-Apple kernel-parameter variant always returns
the absence value. -/
theorem uptime_nonneg_or_none_of_current_time_ok (env : Env) (s : UtmpxState)
    (tv : Timeval) (h : env.gettimeofday = some tv) :
    ((_uptime_posix env s).1 = PyResult.none ∨
      ∃ q, (_uptime_posix env s).1 = PyResult.num q ∧ 0 ≤ q) ∧
    (_uptime_osx env = PyResult.none ∨
      ∃ q, _uptime_osx env = PyResult.num q ∧ 0 ≤ q) ∧
    _uptime_osx_unsupported = PyResult.none := by
  refine ⟨?_, ?_, rfl⟩
  · rcases hres : env.getutxid_boot with _ | r
    · left
      simp [_uptime_posix, getutxid, hres]
    · right
      refine ⟨_calc_uptime env.gettimeofday r.ut_tv, ?_, ?_⟩
      · simp [_uptime_posix, getutxid, hres]
      · rw [h]
        exact calc_uptime_some_nonneg tv r.ut_tv
  · rcases hsy : sysctl_kern_boottime env with _ | bt
    · left
      simp [_uptime_osx, hsy]
    · right
      refine ⟨_calc_uptime env.gettimeofday bt, ?_, ?_⟩
      · simp [_uptime_osx, hsy]
      · rw [h]
        exact calc_uptime_some_nonneg tv bt

/-- Witness for C1 (amended) at a concrete environment whose
`gettimeofday` succeeds. -/
theorem uptime_nonneg_or_none_witness :
    ((_uptime_posix { gettimeofday := some ⟨200, 0⟩,
                      getutxid_boot := some ⟨⟨100, 0⟩⟩,
                      kern_boottime := some (16, ⟨100, 0⟩) } ⟨false⟩).1
        = PyResult.none ∨
      ∃ q, (_uptime_posix { gettimeofday := some ⟨200, 0⟩,
                            getutxid_boot := some ⟨⟨100, 0⟩⟩,
                            kern_boottime := some (16, ⟨100, 0⟩) } ⟨false⟩).1
          = PyResult.num q ∧ 0 ≤ q) ∧
    (_uptime_osx { gettimeofday := some ⟨200, 0⟩,
                   getutxid_boot := some ⟨⟨100, 0⟩⟩,
                   kern_boottime := some (16, ⟨100, 0⟩) } = PyResult.none ∨
      ∃ q, _uptime_osx { gettimeofday := some ⟨200, 0⟩,
                         getutxid_boot := some ⟨⟨100, 0⟩⟩,
                         kern_boottime := some (16, ⟨100, 0⟩) }
          = PyResult.num q ∧ 0 ≤ q) ∧
    _uptime_osx_unsupported = PyResult.none :=
  uptime_nonneg_or_none_of_current_time_ok _ ⟨false⟩ ⟨200, 0⟩ rfl
